import Mathlib

/-!
Shallow embedding of `src/use_event_source.rs` (leptos-use `use_event_source`).

The reactive signals of the source become fields of an explicit state record
`ESState`; the closures `set_data_from_string`, `close`, the stored `init`
connect function, the `on_open` / `on_error` / `on_message` handlers, the
named-event listener and the `open` operation become pure state transformers.
External effects that the claims count (creating an `EventSource`, calling
`set_timeout` to schedule a retry, invoking `on_failed`, calling
`EventSource::close`) are instrumented as ghost counters in the state.
The `u64` attempt counter `retried` uses wrapping increment, modelled as
`% 2 ^ 64`.
-/

namespace UseEventSource

/-- Connection ready state (`crate::core::ConnectionReadyState`). -/
inductive ConnectionReadyState where
  | Connecting
  | Open
  | Closed
deriving DecidableEq, Repr

/-- Error type `UseEventSourceError`: a transport error event (the raw
`web_sys::Event` is modelled by a numeric event id) or a codec decode
failure wrapping the codec error. -/
inductive UseEventSourceError (E : Type) where
  | Event (e : Nat)
  | Deserialize (err : E)
deriving DecidableEq

/-- State of one `use_event_source` manager instance.  The first seven fields
embed the signals and shared atomics created in
`use_event_source_with_options` (lines 148-155): `event`, `data`,
`ready_state`, `event_source` (transport handle, modelled by a numeric
instance id), `error`, `explicitly_closed`, `retried`.  `transportLive`
models the transport capability: whether the current transport instance can
still deliver events (false once it reports terminal closure or is closed).
The remaining fields count external effects of the code:
`connects` counts `EventSource::new` calls, `scheduled` counts `set_timeout`
retry registrations, `onFailedCalls` counts invocations of the `on_failed`
callback, and `esCloseCalls` counts `EventSource::close` calls. -/
structure ESState (T E : Type) where
  event : Option Nat
  data : Option T
  ready_state : ConnectionReadyState
  event_source : Option Nat
  error : Option (UseEventSourceError E)
  explicitly_closed : Bool
  retried : Nat
  transportLive : Bool
  connects : Nat
  scheduled : Nat
  onFailedCalls : Nat
  esCloseCalls : Nat
deriving DecidableEq

/-- The configuration options the claims depend on (`UseEventSourceOptions`):
the decode function of the codec and `reconnect_limit`.  (`reconnect_interval`
only fixes the timer delay and does not influence the state transitions;
`immediate`, `named_events` and `with_credentials` are handled at the points
where they matter.) -/
structure ESConfig (T E : Type) where
  codec : String → Except E T
  reconnect_limit : Nat

variable {T E : Type}

/-- Initial signal values (lines 148-155): all observables `None`,
`ready_state` `Closed`, `explicitly_closed = false`, `retried = 0`,
no transport, no effects performed yet. -/
def initialState : ESState T E where
  event := none
  data := none
  ready_state := ConnectionReadyState.Closed
  event_source := none
  error := none
  explicitly_closed := false
  retried := 0
  transportLive := false
  connects := 0
  scheduled := 0
  onFailedCalls := 0
  esCloseCalls := 0

/-- Embedding of the `set_data_from_string` closure (lines 157-164): when the
payload is a string, decode it; on success overwrite `data`, on failure
overwrite `error` with a `Deserialize` error; a `None` payload does
nothing. -/
def set_data_from_string (cfg : ESConfig T E) (data_string : Option String)
    (st : ESState T E) : ESState T E :=
  match data_string with
  | none => st
  | some ds =>
    match cfg.codec ds with
    | Except.ok d => { st with data := some d }
    | Except.error err =>
      { st with error := some (UseEventSourceError.Deserialize err) }

/-- Embedding of the `close` closure (lines 166-177): only when a transport
handle is present, close the transport, clear the handle, set `ready_state`
to `Closed` and set `explicitly_closed` to `true`. -/
def close (st : ESState T E) : ESState T E :=
  match st.event_source with
  | some _ =>
    { st with
      esCloseCalls := st.esCloseCalls + 1
      transportLive := false
      event_source := none
      ready_state := ConnectionReadyState.Closed
      explicitly_closed := true }
  | none => st

/-- Embedding of the stored `init` connect closure (lines 185-274): return
immediately when `explicitly_closed` is set; otherwise create a new
`EventSource` (a fresh transport instance id), set `ready_state` to
`Connecting` and store the handle.  Handler registration is modelled by the
handler functions below being applicable to the new live transport. -/
def init (st : ESState T E) : ESState T E :=
  if st.explicitly_closed then st
  else
    { st with
      connects := st.connects + 1
      ready_state := ConnectionReadyState.Connecting
      event_source := some st.connects
      transportLive := true }

/-- Embedding of the `on_open` handler (lines 202-205): set `ready_state` to
`Open` and clear `error`. -/
def on_open (st : ESState T E) : ESState T E :=
  { st with ready_state := ConnectionReadyState.Open, error := none }

/-- Embedding of the `on_error` handler (lines 209-247).  `esReadyState` is
the value of `es.ready_state()` reported by the transport.  Always set
`ready_state` to `Closed` and record the error event; then, only when the
transport reports terminal closure (`ready_state == 2`) and
`explicitly_closed` is false and `reconnect_limit > 0`: close the transport,
increment `retried` (a wrapping `u64` `fetch_add`), and either schedule a
retry (when the new value is still below the limit) or invoke `on_failed`. -/
def on_error (cfg : ESConfig T E) (esReadyState : Nat) (e : Nat)
    (st : ESState T E) : ESState T E :=
  let st1 := { st with
    ready_state := ConnectionReadyState.Closed
    error := some (UseEventSourceError.Event e) }
  if esReadyState = 2 ∧ st1.explicitly_closed = false ∧ 0 < cfg.reconnect_limit
  then
    let st2 := { st1 with
      esCloseCalls := st1.esCloseCalls + 1
      transportLive := false }
    let retried_value := (st2.retried + 1) % 2 ^ 64
    let st3 := { st2 with retried := retried_value }
    if retried_value < cfg.reconnect_limit then
      { st3 with scheduled := st3.scheduled + 1 }
    else
      { st3 with onFailedCalls := st3.onFailedCalls + 1 }
  else st1

/-- Embedding of the `on_message` handler (lines 251-259): feed
`e.data().as_string()` (an optional string payload) into
`set_data_from_string`. -/
def on_message (cfg : ESConfig T E) (data_string : Option String)
    (st : ESState T E) : ESState T E :=
  set_data_from_string cfg data_string st

/-- Embedding of the named-event listener registered per configured channel
name (lines 261-273): overwrite `event` with the raw event, then feed the
optional string payload of the event into `set_data_from_string`. -/
def on_named_event (cfg : ESConfig T E) (e : Nat) (data_string : Option String)
    (st : ESState T E) : ESState T E :=
  set_data_from_string cfg data_string { st with event := some e }

/-- Embedding of the `open` closure in an interactive (non-ssr) context
(lines 279-295): call `close`, store `false` into `explicitly_closed`, store
`0` into `retried`, then run the stored `init` connect function. -/
def openConn (st : ESState T E) : ESState T E :=
  init { close st with explicitly_closed := false, retried := 0 }

/-- Embedding of the `open` closure in a server-rendered (ssr) context
(lines 297-300): `move || {}`, a no-op. -/
def ssrOpen (st : ESState T E) : ESState T E :=
  st

/-- Events the environment can deliver to a manager instance between user
operations: a transport error (with the ready state the transport reports), a
scheduled retry timer firing (which runs the stored `init` function, lines
231-236), a default-channel message, a named-channel event, the open
notification of the transport, and a user call to `close`. -/
inductive ESEvent where
  | errorFired (esReadyState : Nat) (e : Nat)
  | retryFired
  | messageArrived (data_string : Option String)
  | namedEventArrived (e : Nat) (data_string : Option String)
  | openFired
  | closeCalled

/-- Dispatch one event to the corresponding embedded handler. -/
def step (cfg : ESConfig T E) : ESEvent → ESState T E → ESState T E
  | ESEvent.errorFired r e, st => on_error cfg r e st
  | ESEvent.retryFired, st => init st
  | ESEvent.messageArrived d, st => on_message cfg d st
  | ESEvent.namedEventArrived e d, st => on_named_event cfg e d st
  | ESEvent.openFired, st => on_open st
  | ESEvent.closeCalled, st => close st

/-- Run a sequence of events. -/
def steps (cfg : ESConfig T E) : List ESEvent → ESState T E → ESState T E
  | [], st => st
  | ev :: evs, st => steps cfg evs (step cfg ev st)

/-- One delivered transport-terminal error followed by the retry timer, when
one was scheduled.  A terminal error can only be delivered by a live
transport; delivering it runs `on_error` with `es.ready_state() == 2`, after
which that transport instance is dead (terminal closure), and if the handler
registered a `set_timeout` retry (observable as a strictly larger `scheduled`
counter) the timer then fires and runs `init`. -/
def deliverError (cfg : ESConfig T E) (e : Nat) (st : ESState T E) :
    ESState T E :=
  if st.transportLive then
    let st1 := { on_error cfg 2 e st with transportLive := false }
    if st.scheduled < st1.scheduled then init st1 else st1
  else st

/-- Run of `n` consecutive transport-terminal errors (each one followed by
its retry timer, when scheduled); the k-th error carries event id `k`. -/
def runErrors (cfg : ESConfig T E) : Nat → ESState T E → ESState T E
  | 0, st => st
  | Nat.succ m, st => deliverError cfg m (runErrors cfg m st)

/-- User-facing operations available in a server-rendered context:
`open` (the ssr no-op) and `close`. -/
inductive SSRCall where
  | openCall
  | closeCall

/-- Dispatch one ssr user operation. -/
def ssrStep : SSRCall → ESState T E → ESState T E
  | SSRCall.openCall, st => ssrOpen st
  | SSRCall.closeCall, st => close st

/-- Run a sequence of ssr user operations from a given state. -/
def ssrRunFrom : List SSRCall → ESState T E → ESState T E
  | [], st => st
  | c :: cs, st => ssrRunFrom cs (ssrStep c st)

/-- Lifetime of a manager instance in a server-rendered context: the initial
signal values followed by any sequence of `open` / `close` calls. -/
def ssrRun (calls : List SSRCall) : ESState T E :=
  ssrRunFrom calls initialState

/-- An integer codec for concrete instantiations: decodes a non-empty string
of decimal digits, failing with the offending string otherwise. -/
def natCodec : String → Except String Nat := fun s =>
  match s.data.foldl (fun acc c =>
    match acc with
    | some n => if c.isDigit then some (n * 10 + (c.toNat - 48)) else none
    | none => none) (some 0) with
  | some n => if s.data.isEmpty then Except.error s else Except.ok n
  | none => Except.error s

/-- Concrete configuration with the integer codec and a given
reconnect limit. -/
def cfgN (limit : Nat) : ESConfig Nat String where
  codec := natCodec
  reconnect_limit := limit

/-- A concrete state with a live, open transport. -/
def stWithES : ESState Nat String :=
  { initialState with
    event_source := some 0
    ready_state := ConnectionReadyState.Open
    transportLive := true
    connects := 1 }

/-- Expected state after `k` delivered terminal errors while retries are
still being scheduled (`k <` limit): the `k`-th retry has connected
transport instance `k`. -/
def liveSt (k : Nat) : ESState T E where
  event := none
  data := none
  ready_state := ConnectionReadyState.Connecting
  event_source := some k
  error := if k = 0 then none else some (UseEventSourceError.Event (k - 1))
  explicitly_closed := false
  retried := k
  transportLive := true
  connects := k + 1
  scheduled := k
  onFailedCalls := 0
  esCloseCalls := k

/-- Expected state once the `L`-th terminal error has exhausted the
reconnect limit `L`: `on_failed` was invoked once and no further retry was
scheduled. -/
def deadSt (L : Nat) : ESState T E where
  event := none
  data := none
  ready_state := ConnectionReadyState.Closed
  event_source := some (L - 1)
  error := some (UseEventSourceError.Event (L - 1))
  explicitly_closed := false
  retried := L
  transportLive := false
  connects := L
  scheduled := L - 1
  onFailedCalls := 1
  esCloseCalls := L

/-- The payload path only ever writes `data` or `error`: the latest named
event is untouched. -/
@[simp] theorem set_data_event (cfg : ESConfig T E) (d : Option String)
    (st : ESState T E) : (set_data_from_string cfg d st).event = st.event := by
  cases d with
  | none => rfl
  | some s => cases hc : cfg.codec s <;> simp [set_data_from_string, hc]

/-- The payload path never touches `explicitly_closed`. -/
@[simp] theorem set_data_explicitly_closed (cfg : ESConfig T E)
    (d : Option String) (st : ESState T E) :
    (set_data_from_string cfg d st).explicitly_closed =
      st.explicitly_closed := by
  cases d with
  | none => rfl
  | some s => cases hc : cfg.codec s <;> simp [set_data_from_string, hc]

/-- The payload path never creates a transport. -/
@[simp] theorem set_data_connects (cfg : ESConfig T E) (d : Option String)
    (st : ESState T E) :
    (set_data_from_string cfg d st).connects = st.connects := by
  cases d with
  | none => rfl
  | some s => cases hc : cfg.codec s <;> simp [set_data_from_string, hc]

/-- The payload path never schedules a retry. -/
@[simp] theorem set_data_scheduled (cfg : ESConfig T E) (d : Option String)
    (st : ESState T E) :
    (set_data_from_string cfg d st).scheduled = st.scheduled := by
  cases d with
  | none => rfl
  | some s => cases hc : cfg.codec s <;> simp [set_data_from_string, hc]

/-- The payload path never invokes `on_failed`. -/
@[simp] theorem set_data_onFailedCalls (cfg : ESConfig T E) (d : Option String)
    (st : ESState T E) :
    (set_data_from_string cfg d st).onFailedCalls = st.onFailedCalls := by
  cases d with
  | none => rfl
  | some s => cases hc : cfg.codec s <;> simp [set_data_from_string, hc]

/-- C9: calling `close` when no transport handle is present changes no state
at all: the entire body of `close` is guarded on the handle being present,
so in particular `explicitly_closed` is not set and `ready_state` and every
observable cell are left unchanged. -/
theorem close_without_transport_noop (st : ESState T E)
    (h : st.event_source = none) : close st = st := by
  unfold close
  rw [h]

/-- Witness for C9 at the initial state, which has no transport handle. -/
theorem close_without_transport_noop_witness :
    close (initialState : ESState Nat String) = initialState :=
  close_without_transport_noop initialState rfl

/-- C10: a default-channel message whose data is not a string is silently
ignored (the whole state, in particular `data`, `error`, `event` and
`ready_state`, is unchanged), and a default-channel message never modifies
the latest named event, whatever its payload. -/
theorem default_message_frame (cfg : ESConfig T E) (st : ESState T E) :
    on_message cfg none st = st ∧
    ∀ d, (on_message cfg d st).event = st.event := by
  constructor
  · rfl
  · intro d
    exact set_data_event cfg d st

/-- C5: for every incoming string payload, a successful decode overwrites
exactly `data` (leaving `error` and all other fields unchanged) and a
failed decode overwrites exactly `error` with a `Deserialize` error
(leaving `data`, `ready_state`, `retried` and the reconnect effect counters
unchanged, so a decode failure never triggers a reconnect). -/
theorem decode_result_routing (cfg : ESConfig T E) (s : String)
    (st : ESState T E) :
    (∀ v, cfg.codec s = Except.ok v →
      set_data_from_string cfg (some s) st = { st with data := some v }) ∧
    (∀ err, cfg.codec s = Except.error err →
      set_data_from_string cfg (some s) st =
        { st with error := some (UseEventSourceError.Deserialize err) }) := by
  constructor
  · intro v h
    simp [set_data_from_string, h]
  · intro err h
    simp [set_data_from_string, h]

/-- Witness for C5: the integer codec decodes `"42"` into `data` and fails
on `"abc"` into `error`. -/
theorem decode_result_routing_witness :
    set_data_from_string (cfgN 3) (some "42") initialState =
      { (initialState : ESState Nat String) with data := some 42 } ∧
    set_data_from_string (cfgN 3) (some "abc") initialState =
      { (initialState : ESState Nat String) with
        error := some (UseEventSourceError.Deserialize "abc") } :=
  ⟨(decode_result_routing (cfgN 3) "42" initialState).1 42 rfl,
   (decode_result_routing (cfgN 3) "abc" initialState).2 "abc" rfl⟩

/-- C6: the error handler always sets `ready_state` to `Closed` and records
the error event as the latest error, and it initiates a reconnect
(force-closing the transport and incrementing the attempt counter) if and
only if the transport reports terminal closure (`ready_state == 2`),
`explicitly_closed` is false, and `reconnect_limit` is positive. -/
theorem error_handler_behavior (cfg : ESConfig T E) (esReadyState e : Nat)
    (st : ESState T E) :
    (on_error cfg esReadyState e st).ready_state =
      ConnectionReadyState.Closed ∧
    (on_error cfg esReadyState e st).error =
      some (UseEventSourceError.Event e) ∧
    (((on_error cfg esReadyState e st).esCloseCalls = st.esCloseCalls + 1 ∧
      (on_error cfg esReadyState e st).retried = (st.retried + 1) % 2 ^ 64) ↔
      (esReadyState = 2 ∧ st.explicitly_closed = false ∧
        0 < cfg.reconnect_limit)) := by
  unfold on_error
  by_cases h : esReadyState = 2 ∧ st.explicitly_closed = false ∧
      0 < cfg.reconnect_limit
  · rw [if_pos h]
    by_cases h2 : (st.retried + 1) % 2 ^ 64 < cfg.reconnect_limit
    · rw [if_pos h2]
      exact ⟨rfl, rfl, iff_of_true ⟨rfl, rfl⟩ h⟩
    · rw [if_neg h2]
      exact ⟨rfl, rfl, iff_of_true ⟨rfl, rfl⟩ h⟩
  · rw [if_neg h]
    refine ⟨rfl, rfl, iff_of_false (fun hc => ?_) h⟩
    have hc1 := hc.1
    simp only [ESState.esCloseCalls] at hc1
    omega

/-- C4: every interactive `open` call first closes any existing transport
(when one is present, its `close` is requested), then unconditionally resets
`explicitly_closed` to false and the attempt counter to 0, and then runs the
internal connect sequence, which creates a fresh transport and sets
`ready_state` to `Connecting`. -/
theorem open_always_resets (st : ESState T E) :
    (openConn st).explicitly_closed = false ∧
    (openConn st).retried = 0 ∧
    (openConn st).connects = st.connects + 1 ∧
    (openConn st).ready_state = ConnectionReadyState.Connecting ∧
    (openConn st).event_source = some st.connects ∧
    (st.event_source.isSome = true →
      (openConn st).esCloseCalls = st.esCloseCalls + 1) := by
  unfold openConn close init
  cases hes : st.event_source <;> simp [hes]

/-- Witness for C4 at a state whose previous connection is currently open. -/
theorem open_always_resets_witness :
    (openConn stWithES).explicitly_closed = false ∧
    (openConn stWithES).retried = 0 ∧
    (openConn stWithES).connects = stWithES.connects + 1 ∧
    (openConn stWithES).ready_state = ConnectionReadyState.Connecting ∧
    (openConn stWithES).esCloseCalls = stWithES.esCloseCalls + 1 := by
  have h := open_always_resets stWithES
  exact ⟨h.1, h.2.1, h.2.2.1, h.2.2.2.1, h.2.2.2.2.2 rfl⟩

/-- C8: the named-event listener first overwrites the latest named event
with the raw event and then decodes the payload exactly as the default
message handler does; in particular a payload that the codec decodes
successfully overwrites `data` with the decoded value. -/
theorem named_event_handler (cfg : ESConfig T E) (e : Nat)
    (d : Option String) (st : ESState T E) :
    (on_named_event cfg e d st).event = some e ∧
    on_named_event cfg e d st = on_message cfg d { st with event := some e } ∧
    (∀ s v, d = some s → cfg.codec s = Except.ok v →
      (on_named_event cfg e d st).data = some v) := by
    refine ⟨?_, rfl, ?_⟩
    · show (set_data_from_string cfg d { st with event := some e }).event =
        some e
      rw [set_data_event]
    · intro s v hd hv
      rw [hd]
      unfold on_named_event
      simp [set_data_from_string, hv]

/-- Witness for C8: the scenario with a named event carrying payload `"42"`
on the integer codec sets the latest named event to the raw event and
decodes `data` to `42`. -/
theorem named_event_handler_witness :
    (on_named_event (cfgN 3) 7 (some "42")
      (initialState : ESState Nat String)).event = some 7 ∧
    (on_named_event (cfgN 3) 7 (some "42")
      (initialState : ESState Nat String)).data = some 42 :=
  ⟨(named_event_handler (cfgN 3) 7 (some "42") initialState).1,
   (named_event_handler (cfgN 3) 7 (some "42") initialState).2.2 "42" 42
     rfl rfl⟩

/-- One event step neither unsets an `explicitly_closed` flag nor creates a
transport: `init` is guarded on the flag and nothing but `init` calls the
transport constructor. -/
theorem step_preserves_suppression (cfg : ESConfig T E) (ev : ESEvent)
    (st : ESState T E) (h : st.explicitly_closed = true) :
    (step cfg ev st).explicitly_closed = true ∧
    (step cfg ev st).connects = st.connects := by
  cases ev with
  | errorFired r e =>
    simp only [step]
    unfold on_error
    rw [if_neg (by simp [h])]
    exact ⟨h, rfl⟩
  | retryFired =>
    simp only [step]
    unfold init
    rw [if_pos h]
    exact ⟨h, rfl⟩
  | messageArrived d =>
    simp only [step, on_message]
    rw [set_data_explicitly_closed, set_data_connects]
    exact ⟨h, rfl⟩
  | namedEventArrived e d =>
    simp only [step, on_named_event]
    rw [set_data_explicitly_closed, set_data_connects]
    exact ⟨h, rfl⟩
  | openFired => exact ⟨h, rfl⟩
  | closeCalled =>
    simp only [step]
    unfold close
    cases hes : st.event_source <;> simp [h]

/-- C2: once `close` on a state holding a transport handle has set
`explicitly_closed`, the stored connect function is a no-op (it checks the
flag at entry), and no subsequent event sequence — in particular a pending
scheduled retry firing — ever creates a new transport. -/
theorem close_suppresses_pending_retry (cfg : ESConfig T E)
    (st : ESState T E) (h : st.event_source.isSome = true)
    (evs : List ESEvent) :
    init (close st) = close st ∧
    (steps cfg evs (close st)).connects = (close st).connects := by
  have hc : (close st).explicitly_closed = true := by
    unfold close
    cases hes : st.event_source with
    | none => rw [hes] at h; simp at h
    | some es => rfl
  refine ⟨?_, ?_⟩
  · unfold init
    rw [if_pos hc]
  · clear h
    generalize close st = st0 at hc ⊢
    induction evs generalizing st0 with
    | nil => rfl
    | cons ev evs ih =>
      have hs := step_preserves_suppression cfg ev st0 hc
      have ht := ih (step cfg ev st0) hs.1
      rw [steps, ht, hs.2]

/-- Witness for C2: closing the open connection and then letting the retry
timer fire creates no transport. -/
theorem close_suppresses_pending_retry_witness :
    init (close stWithES) = close stWithES ∧
    (steps (cfgN 3) [ESEvent.retryFired] (close stWithES)).connects =
      (close stWithES).connects :=
  close_suppresses_pending_retry (cfgN 3) stWithES rfl [ESEvent.retryFired]

/-- One event step with `reconnect_limit = 0` neither schedules a retry nor
invokes `on_failed`: the reconnect branch of the error handler requires a
positive limit. -/
theorem step_limit_zero (cfg : ESConfig T E) (h : cfg.reconnect_limit = 0)
    (ev : ESEvent) (st : ESState T E) :
    (step cfg ev st).scheduled = st.scheduled ∧
    (step cfg ev st).onFailedCalls = st.onFailedCalls := by
  cases ev with
  | errorFired r e =>
    simp only [step]
    unfold on_error
    rw [if_neg (by simp [h])]
    exact ⟨rfl, rfl⟩
  | retryFired =>
    simp only [step]
    unfold init
    split
    · exact ⟨rfl, rfl⟩
    · exact ⟨rfl, rfl⟩
  | messageArrived d =>
    simp only [step, on_message]
    rw [set_data_scheduled, set_data_onFailedCalls]
    exact ⟨rfl, rfl⟩
  | namedEventArrived e d =>
    simp only [step, on_named_event]
    rw [set_data_scheduled, set_data_onFailedCalls]
    exact ⟨rfl, rfl⟩
  | openFired => exact ⟨rfl, rfl⟩
  | closeCalled =>
    simp only [step]
    unfold close
    cases hes : st.event_source <;> simp

/-- C3: with `reconnect_limit = 0` no event sequence — however many
transport errors it contains and whatever the attempt counter holds — ever
schedules a reconnect or invokes `on_failed`. -/
theorem limit_zero_disables_reconnect (cfg : ESConfig T E)
    (h : cfg.reconnect_limit = 0) (evs : List ESEvent) (st : ESState T E) :
    (steps cfg evs st).scheduled = st.scheduled ∧
    (steps cfg evs st).onFailedCalls = st.onFailedCalls := by
  induction evs generalizing st with
  | nil => exact ⟨rfl, rfl⟩
  | cons ev evs ih =>
    have hs := step_limit_zero cfg h ev st
    have ht := ih (step cfg ev st)
    rw [steps, ht.1, ht.2, hs.1, hs.2]
    exact ⟨rfl, rfl⟩

/-- Witness for C3: two consecutive terminal errors with limit 0 schedule
nothing and never invoke `on_failed`. -/
theorem limit_zero_disables_reconnect_witness :
    (steps (cfgN 0) [ESEvent.errorFired 2 0, ESEvent.errorFired 2 1]
      stWithES).scheduled = stWithES.scheduled ∧
    (steps (cfgN 0) [ESEvent.errorFired 2 0, ESEvent.errorFired 2 1]
      stWithES).onFailedCalls = stWithES.onFailedCalls :=
  limit_zero_disables_reconnect (cfgN 0) rfl
    [ESEvent.errorFired 2 0, ESEvent.errorFired 2 1] stWithES

/-- Both server-rendered user operations fix the initial state: `open` is
the no-op closure and `close` finds no transport handle. -/
theorem ssrStep_fixes_initial (c : SSRCall) :
    ssrStep c (initialState : ESState T E) = initialState := by
  cases c with
  | openCall => rfl
  | closeCall => rfl

/-- C7: in a server-rendered context, any sequence of `open` and `close`
calls over the lifetime of the manager leaves it at the initial state: no
state change, no transport created, `ready_state` permanently `Closed` and
the `data`, `event` and `error` observables permanently absent. -/
theorem ssr_noop_lifetime (calls : List SSRCall) :
    ssrRun calls = (initialState : ESState T E) ∧
    (ssrRun calls : ESState T E).ready_state = ConnectionReadyState.Closed ∧
    (ssrRun calls : ESState T E).data = none ∧
    (ssrRun calls : ESState T E).event = none ∧
    (ssrRun calls : ESState T E).error = none ∧
    (ssrRun calls : ESState T E).connects = 0 := by
  have key : ssrRun calls = (initialState : ESState T E) := by
    unfold ssrRun
    induction calls with
    | nil => rfl
    | cons c cs ih =>
      rw [ssrRunFrom, ssrStep_fixes_initial c]
      exact ih
  rw [key]
  exact ⟨rfl, rfl, rfl, rfl, rfl, rfl⟩

/-- Characterization of a run of consecutive transport-terminal errors
after a fresh `open` with positive limit `L`: after `N` errors with `N < L`
the manager is connecting through its `N`-th retry transport; from the
`L`-th error onward it is dead, with `on_failed` invoked exactly once. -/
theorem runErrors_char (cfg : ESConfig T E) (hL : 0 < cfg.reconnect_limit)
    (hW : cfg.reconnect_limit < 2 ^ 64) (N : Nat) :
    runErrors cfg N (openConn initialState) =
      if N < cfg.reconnect_limit then liveSt N
      else deadSt cfg.reconnect_limit := by
  induction N with
  | zero =>
    rw [if_pos hL]
    show openConn initialState = liveSt 0
    unfold openConn close initialState init liveSt
    simp
  | succ m ih =>
    rw [runErrors, ih]
    have hW2 : cfg.reconnect_limit < 18446744073709551616 := by
      norm_num at hW
      exact hW
    by_cases hm : m < cfg.reconnect_limit
    · rw [if_pos hm]
      have hmod : (m + 1) % 18446744073709551616 = m + 1 :=
        Nat.mod_eq_of_lt (by omega)
      by_cases hm1 : m + 1 < cfg.reconnect_limit
      · rw [if_pos hm1]
        unfold deliverError on_error init liveSt
        simp [hmod, hm1, hL]
      · rw [if_neg hm1]
        have hEq : cfg.reconnect_limit = m + 1 := by omega
        unfold deliverError on_error liveSt deadSt
        simp [hmod, hm1, hL, hEq]
    · rw [if_neg hm, if_neg (by omega)]
      unfold deliverError deadSt
      simp

/-- C1 (amended): for every run of `N` consecutive transport-terminal
errors after a fresh `open` with `explicitly_closed = false` and
`reconnect_limit = L > 0`, exactly `min N (L - 1)` reconnect attempts are
scheduled (the initial connection counts toward the limit, so the last
failure triggers `on_failed` instead of a retry), `on_failed` is invoked
exactly once, immediately after the `L`-th failure and never before, and
the total number of transports created is `1 + min N (L - 1)` — in
particular, with limit 3 and 3 consecutive errors there are 3 total
connects (1 initial + 2 retries) and no further retry is scheduled. -/
theorem reconnect_run_counts (cfg : ESConfig T E)
    (hL : 0 < cfg.reconnect_limit) (hW : cfg.reconnect_limit < 2 ^ 64)
    (N : Nat) :
    (runErrors cfg N (openConn initialState)).scheduled =
      min N (cfg.reconnect_limit - 1) ∧
    (runErrors cfg N (openConn initialState)).onFailedCalls =
      (if cfg.reconnect_limit ≤ N then 1 else 0) ∧
    (runErrors cfg N (openConn initialState)).connects =
      1 + min N (cfg.reconnect_limit - 1) := by
  rw [runErrors_char cfg hL hW N]
  by_cases h : N < cfg.reconnect_limit
  · rw [if_pos h, if_neg (by omega)]
    unfold liveSt
    refine ⟨?_, rfl, ?_⟩ <;> simp <;> omega
  · rw [if_neg h, if_pos (by omega)]
    unfold deadSt
    refine ⟨?_, rfl, ?_⟩ <;> simp <;> omega

/-- Witness for C1 (amended) at limit 3 with 5 delivered errors. -/
theorem reconnect_run_counts_witness :
    (runErrors (cfgN 3) 5 (openConn initialState)).scheduled =
      min 5 ((cfgN 3).reconnect_limit - 1) ∧
    (runErrors (cfgN 3) 5 (openConn initialState)).onFailedCalls =
      (if (cfgN 3).reconnect_limit ≤ 5 then 1 else 0) ∧
    (runErrors (cfgN 3) 5 (openConn initialState)).connects =
      1 + min 5 ((cfgN 3).reconnect_limit - 1) :=
  reconnect_run_counts (cfgN 3) (by norm_num [cfgN])
    (by norm_num [cfgN]) 5

/-- C1 counterexample: with `reconnect_limit = 3` and 3 consecutive
transport-terminal errors the code schedules only 2 retries and creates 3
transports in total (1 initial + 2 retries), refuting the claimed
`min(3, 3) = 3` scheduled retries and 4 total connects. -/
theorem reconnect_run_claimed_counts_false :
    ¬((runErrors (cfgN 3) 3 (openConn initialState)).scheduled = min 3 3 ∧
      (runErrors (cfgN 3) 3 (openConn initialState)).connects = 1 + 3) := by
  intro h
  have h1 := h.1
  norm_num [runErrors, deliverError, on_error, init, openConn, close,
    initialState, cfgN] at h1

end UseEventSource
